import Mathlib

/-!
Shallow embedding of `src/server.js` (FCM notification relay server).

JavaScript strings are modelled as Lean `String`; a missing (`undefined`)
field of a JSON request body is `Option.none`.  JavaScript truthiness on
string-valued fields (`!x`, `x || d`) is modelled by `truthy` / `jsOr`:
a string field is falsy exactly when it is absent or the empty string.
External collaborators (the Firestore user store, the FCM gateway, the
history store, the wall clock) are an explicit environment `Env`, and each
handler returns, beside its HTTP response, a `Trace` of the external calls
it performed.
-/

/-- JavaScript truthiness of an optional string field: `undefined` and the
empty string are falsy, every other string is truthy. -/
def truthy : Option String → Bool
  | none => false
  | some s => s ≠ ""

/-- JavaScript `x || d` for an optional string `x`: the default `d` is used
when `x` is absent or the empty string. -/
def jsOr (x : Option String) (d : String) : String :=
  match x with
  | none => d
  | some s => if s = "" then d else s

/-- JavaScript `s || d` for a plain string `s`: `d` when `s` is empty. -/
def strOr (s d : String) : String :=
  if s = "" then d else s

/-- A Firestore `users/{id}` document, as read by the server: only the
`fcmToken` field is consulted (`receiverData.fcmToken`), which may be
absent. -/
structure UserRecord where
  fcmToken : Option String
deriving DecidableEq

/-- The FCM message built by `sendFCMNotification` (src/server.js:73-98):
`notification.title/body`, the `data` map (with `click_action` merged in),
the target `token`, and the fixed high-priority platform hints. -/
structure FCMMessage where
  title : String
  body : String
  data : List (String × String)
  token : String
  androidPriority : String
  androidSound : String
  androidChannelId : String
  apnsSound : String
  apnsBadge : Nat
deriving DecidableEq

/-- Result object returned by `sendFCMNotification`:
`{success: true, messageId}` or `{success: false, error}`. -/
structure SendResult where
  success : Bool
  messageId : Option String
  error : Option String
deriving DecidableEq

/-- The document appended to the `notifications` collection for history
(src/server.js:249-262).  The server-generated `timestamp` field is owned
by the external store and not modelled. -/
structure HistoryRecord where
  receiverId : String
  senderId : String
  senderName : String
  type : String
  title : String
  body : String
  chatId : String
  notificationId : String
  messageContent : String
  read : Bool
  fcmMessageId : Option String
deriving DecidableEq

/-- The composed notification payload: title, (possibly truncated) body and
the structured `data` metadata built at src/server.js:229-241. -/
structure NotificationPayload where
  title : String
  body : String
  data : List (String × String)
deriving DecidableEq

/-- External collaborators of the server, passed explicitly:
the user-directory store, the push gateway (returning a message id or a
rejection reason), whether a history append would succeed, and the
wall-clock reading `new Date().toISOString()` would give at compose time. -/
structure Env where
  users : String → Option UserRecord
  gateway : FCMMessage → Except String String
  historyOk : Bool
  now : String

/-- Trace of the external calls a handler performed: user-document reads,
gateway sends, composed payloads, attempted history appends and the
success of each attempt. -/
structure Trace where
  userLookups : List String
  composed : List NotificationPayload
  gatewaySends : List FCMMessage
  historyAttempts : List HistoryRecord
  historyOutcomes : List Bool
deriving DecidableEq

/-- The empty trace: no external call performed. -/
def emptyTrace : Trace :=
  ⟨[], [], [], [], []⟩

/-- HTTP response of the `/send-notification` handler: 400 with an error
string, 404 with an error string, or 200 with the gateway result object. -/
inductive Response where
  | badRequest (error : String)
  | notFound (error : String)
  | ok (result : SendResult)
deriving DecidableEq

/-- Request body of `POST /send-notification`
(src/server.js:192): each field may be absent. -/
structure SendNotificationRequest where
  senderId : Option String
  receiverId : Option String
  message : Option String
  senderName : Option String
  chatId : Option String
  notificationId : Option String
deriving DecidableEq

/-- The message object built in `sendFCMNotification` (src/server.js:73-98):
defaults for empty title/body, the caller metadata spread together with
`click_action` (a later key in a JS object literal overrides an earlier
one), and the fixed platform hints. -/
def buildFCMMessage (token title body : String) (data : List (String × String)) :
    FCMMessage where
  title := strOr title "Notification"
  body := strOr body "You have a new message"
  data := data.filter (fun p => p.1 ≠ "click_action")
            ++ [("click_action", "FLUTTER_NOTIFICATION_CLICK")]
  token := token
  androidPriority := "high"
  androidSound := "default"
  androidChannelId := "high_importance_channel"
  apnsSound := "default"
  apnsBadge := 1

/-- `sendFCMNotification` (src/server.js:71-107): builds the message, calls
the gateway, and catches any rejection, returning
`{success: false, error: error.message}` instead of throwing. -/
def sendFCMNotification (gateway : FCMMessage → Except String String)
    (token title body : String) (data : List (String × String)) : SendResult :=
  match gateway (buildFCMMessage token title body data) with
  | .ok mid => ⟨true, some mid, none⟩
  | .error e => ⟨false, none, some e⟩

/-- Notification title composed at src/server.js:229. -/
def composeTitle (senderName : Option String) : String :=
  "New message from " ++ jsOr senderName "Someone"

/-- Notification body composed at src/server.js:230-231: the message
itself, or its first 100 characters followed by three dots. -/
def composeBody (message : String) : String :=
  if message.length > 100 then message.take 100 ++ "..." else message

/-- The `data` metadata map composed at src/server.js:233-241; `now` is the
value `new Date().toISOString()` read at compose time. -/
def composeData (senderId message : String)
    (senderName chatId notificationId : Option String) (now : String) :
    List (String × String) :=
  [ ("type", "message"),
    ("senderId", senderId),
    ("senderName", jsOr senderName "Someone"),
    ("message", message),
    ("chatId", jsOr chatId ""),
    ("timestamp", now),
    ("notificationId", jsOr notificationId "") ]

/-- The full payload composed at src/server.js:229-241 from the request
fields and the compose-time clock reading. -/
def composePayload (senderId message : String)
    (senderName chatId notificationId : Option String) (now : String) :
    NotificationPayload :=
  ⟨composeTitle senderName, composeBody message,
    composeData senderId message senderName chatId notificationId now⟩

/-- The history document built at src/server.js:249-262. -/
def mkHistoryRecord (receiverId senderId : String)
    (senderName : Option String) (title body : String)
    (chatId notificationId : Option String) (message : String)
    (fcmMessageId : Option String) : HistoryRecord where
  receiverId := receiverId
  senderId := senderId
  senderName := jsOr senderName "Someone"
  type := "message"
  title := title
  body := body
  chatId := jsOr chatId ""
  notificationId := jsOr notificationId ""
  messageContent := message
  read := false
  fcmMessageId := fcmMessageId

/-- The `POST /send-notification` handler (src/server.js:188-279):
validate the three required fields, look up the receiver document, check
its FCM token, compose the payload, send via FCM, and on success attempt a
best-effort history append whose failure is swallowed.  Returns the HTTP
response and the trace of external calls. -/
def handleSendNotification (env : Env) (req : SendNotificationRequest) :
    Response × Trace :=
  if truthy req.senderId && truthy req.receiverId && truthy req.message then
    let senderId := req.senderId.getD ""
    let receiverId := req.receiverId.getD ""
    let message := req.message.getD ""
    match env.users receiverId with
    | none =>
        (.notFound "Receiver not found",
          { emptyTrace with userLookups := [receiverId] })
    | some receiverData =>
        if truthy receiverData.fcmToken then
          let token := receiverData.fcmToken.getD ""
          let payload := composePayload senderId message req.senderName
            req.chatId req.notificationId env.now
          let msg := buildFCMMessage token payload.title payload.body payload.data
          let result := sendFCMNotification env.gateway token payload.title
            payload.body payload.data
          if result.success then
            let record := mkHistoryRecord receiverId senderId req.senderName
              payload.title payload.body req.chatId req.notificationId message
              result.messageId
            (.ok result,
              { userLookups := [receiverId], composed := [payload],
                gatewaySends := [msg], historyAttempts := [record],
                historyOutcomes := [env.historyOk] })
          else
            (.ok result,
              { userLookups := [receiverId], composed := [payload],
                gatewaySends := [msg], historyAttempts := [],
                historyOutcomes := [] })
        else
          (.notFound "Receiver has no FCM token",
            { emptyTrace with userLookups := [receiverId] })
  else
    (.badRequest "senderId, receiverId, and message are required", emptyTrace)

/-- A `chats/{id}` document as read by the (disabled) Firestore listener
(src/server.js:359-409): last message text and sender, the participant id
list and the display-name map. -/
structure ChatData where
  lastMessage : Option String
  lastMessageSender : Option String
  participants : List String
  participantNames : List (String × String)
deriving DecidableEq

/-- Outcome of `handleNewMessage`: an early return on a missing receiver,
user record or token, or a dispatch to the derived receiver with the
gateway's result. -/
inductive WatchOutcome where
  | skippedNoReceiver
  | skippedUserNotFound
  | skippedNoToken
  | dispatched (receiverId : String) (result : SendResult)
deriving DecidableEq

/-- `handleNewMessage` (src/server.js:359-409, the ChangeWatcher dispatch
path, present in the source inside the disabled listener block): derive
the receiver as the first participant different from
`chatData.lastMessageSender` (a falsy find result returns early), look up
its user record and token, and send a composed notification whose `data`
carries only type, chatId, senderId and senderName. -/
def handleNewMessage (env : Env) (chatId : String) (chatData : ChatData) :
    WatchOutcome × Trace :=
  let senderId := chatData.lastMessageSender.getD ""
  let messageText := chatData.lastMessage.getD ""
  match chatData.participants.find? (fun id => id != senderId) with
  | none => (.skippedNoReceiver, emptyTrace)
  | some receiverId =>
    if receiverId = "" then (.skippedNoReceiver, emptyTrace)
    else
      match env.users receiverId with
      | none =>
          (.skippedUserNotFound, { emptyTrace with userLookups := [receiverId] })
      | some receiverData =>
          if truthy receiverData.fcmToken then
            let token := receiverData.fcmToken.getD ""
            let senderName := jsOr (chatData.participantNames.lookup senderId) "Someone"
            let title := "New message from " ++ senderName
            let body := composeBody messageText
            let data := [ ("type", "message"), ("chatId", chatId),
              ("senderId", senderId), ("senderName", senderName) ]
            let msg := buildFCMMessage token title body data
            let result := sendFCMNotification env.gateway token title body data
            (.dispatched receiverId result,
              { emptyTrace with userLookups := [receiverId], gatewaySends := [msg] })
          else
            (.skippedNoToken, { emptyTrace with userLookups := [receiverId] })

/-! ## Helper definitions and lemmas -/

/-- The FCM message the `/send-notification` handler hands to the gateway
when the request is valid and the receiver record `rd` was found. -/
def sentMessage (env : Env) (req : SendNotificationRequest) (rd : UserRecord) :
    FCMMessage :=
  buildFCMMessage (rd.fcmToken.getD "")
    (composeTitle req.senderName) (composeBody (req.message.getD ""))
    (composeData (req.senderId.getD "") (req.message.getD "") req.senderName
      req.chatId req.notificationId env.now)

/-- A sample environment: user `u2` has token `tokenXYZ`, the gateway
accepts everything, history appends succeed. -/
def sampleEnv : Env where
  users := fun u => if u = "u2" then some ⟨some "tokenXYZ"⟩ else none
  gateway := fun _ => .ok "fcm-msg-1"
  historyOk := true
  now := "2024-01-01T00:00:00.000Z"

/-- A sample valid request from `u1` to `u2`. -/
def sampleReq : SendNotificationRequest :=
  ⟨some "u1", some "u2", some "hi", some "Alice", none, none⟩

theorem composeBody_ne_empty (m : String) (h : m ≠ "") : composeBody m ≠ "" := by
  unfold composeBody
  split
  · intro hc
    have hlen := congrArg String.length hc
    rw [String.length_append] at hlen
    have h3 : ("..." : String).length = 3 := by decide
    have h0 : ("" : String).length = 0 := by decide
    omega
  · exact h

theorem truthy_getD_ne_empty {x : Option String} (h : truthy x = true) :
    x.getD "" ≠ "" := by
  cases x with
  | none => simp [truthy] at h
  | some s => simpa [truthy] using h

/-- On a valid request whose receiver exists with a truthy token, the
handler sends exactly one gateway message, namely `sentMessage`, and its
composed-payload trace is the single compose-time payload. -/
theorem handleSendNotification_send_trace (env : Env)
    (req : SendNotificationRequest)
    (hs : truthy req.senderId = true) (hr : truthy req.receiverId = true)
    (hm : truthy req.message = true) (rd : UserRecord)
    (hu : env.users (req.receiverId.getD "") = some rd)
    (ht : truthy rd.fcmToken = true) :
    (handleSendNotification env req).2.gatewaySends = [sentMessage env req rd] ∧
    (handleSendNotification env req).2.composed =
      [composePayload (req.senderId.getD "") (req.message.getD "")
        req.senderName req.chatId req.notificationId env.now] := by
  unfold handleSendNotification
  simp only [hs, hr, hm, Bool.and_self, if_true, hu, ht]
  constructor <;> split <;>
    simp [sentMessage, composePayload, composeTitle, composeBody, composeData]

/-! ## Claim theorems -/

/-- C1: for every message event dispatched via `/send-notification`, the
body of the notification handed to the gateway equals `messageText` when
its length is at most 100, and equals the first 100 characters of
`messageText` followed by the three-character string "..." when its length
exceeds 100. -/
theorem sendNotification_body_truncation (env : Env)
    (req : SendNotificationRequest)
    (hs : truthy req.senderId = true) (hr : truthy req.receiverId = true)
    (hm : truthy req.message = true) (rd : UserRecord)
    (hu : env.users (req.receiverId.getD "") = some rd)
    (ht : truthy rd.fcmToken = true) :
    ((handleSendNotification env req).2.gatewaySends.map FCMMessage.body) =
      [if (req.message.getD "").length ≤ 100 then req.message.getD ""
       else (req.message.getD "").take 100 ++ "..."] := by
  obtain ⟨hg, -⟩ := handleSendNotification_send_trace env req hs hr hm rd hu ht
  have hne : composeBody (req.message.getD "") ≠ "" :=
    composeBody_ne_empty _ (truthy_getD_ne_empty hm)
  rw [hg]
  simp only [List.map_cons, List.map_nil, sentMessage, buildFCMMessage, strOr]
  rw [if_neg hne]
  unfold composeBody
  rcases le_or_lt (req.message.getD "").length 100 with hle | hlt
  · rw [if_neg (by omega), if_pos hle]
  · rw [if_pos hlt, if_neg (by omega)]

/-- Witness for C1 at the sample request. -/
theorem sendNotification_body_truncation_witness :
    ((handleSendNotification sampleEnv sampleReq).2.gatewaySends.map
        FCMMessage.body) =
      [if ("hi" : String).length ≤ 100 then ("hi" : String)
       else ("hi" : String).take 100 ++ "..."] :=
  sendNotification_body_truncation sampleEnv sampleReq (by decide) (by decide)
    (by decide) ⟨some "tokenXYZ"⟩ (by decide) (by decide)

/-- C2: a `/send-notification` request missing any of `senderId`,
`receiverId` or `message` yields the 400 invalid-request response and an
empty trace: no user lookup, no gateway send, no history write. -/
theorem sendNotification_missing_field_invalid (env : Env)
    (req : SendNotificationRequest)
    (h : req.senderId = none ∨ req.receiverId = none ∨ req.message = none) :
    handleSendNotification env req =
      (.badRequest "senderId, receiverId, and message are required",
        emptyTrace) := by
  unfold handleSendNotification
  rcases h with h | h | h <;> simp [h, truthy]

/-- Witness for C2 with the `senderId` field absent. -/
theorem sendNotification_missing_field_invalid_witness :
    handleSendNotification sampleEnv
        ⟨none, some "u2", some "hi", none, none, none⟩ =
      (.badRequest "senderId, receiverId, and message are required",
        emptyTrace) :=
  sendNotification_missing_field_invalid sampleEnv _ (Or.inl rfl)

/-- C9: a `/send-notification` request in which `senderId`, `receiverId`
or `message` is present but equal to the empty string is rejected with the
same 400 invalid-request response as an absent field, with an empty trace:
no external call is performed. -/
theorem sendNotification_empty_field_invalid (env : Env)
    (req : SendNotificationRequest)
    (h : req.senderId = some "" ∨ req.receiverId = some "" ∨
      req.message = some "") :
    handleSendNotification env req =
      (.badRequest "senderId, receiverId, and message are required",
        emptyTrace) := by
  unfold handleSendNotification
  rcases h with h | h | h <;> simp [h, truthy]

/-- Witness for C9 with `message` present but empty. -/
theorem sendNotification_empty_field_invalid_witness :
    handleSendNotification sampleEnv
        ⟨some "u1", some "u2", some "", some "Alice", none, none⟩ =
      (.badRequest "senderId, receiverId, and message are required",
        emptyTrace) :=
  sendNotification_empty_field_invalid sampleEnv _ (Or.inr (Or.inr rfl))

/-- C3: on a valid request, a receiver with no user record yields the 404
"Receiver not found" response, and a receiver whose record has a falsy
`fcmToken` yields the 404 "Receiver has no FCM token" response; in both
cases the trace shows only the single user lookup: the gateway is never
called and no later step runs. -/
theorem sendNotification_skip_paths (env : Env) (req : SendNotificationRequest)
    (hs : truthy req.senderId = true) (hr : truthy req.receiverId = true)
    (hm : truthy req.message = true) :
    (env.users (req.receiverId.getD "") = none →
      handleSendNotification env req =
        (.notFound "Receiver not found",
          { emptyTrace with userLookups := [req.receiverId.getD ""] })) ∧
    (∀ rd, env.users (req.receiverId.getD "") = some rd →
      truthy rd.fcmToken = false →
      handleSendNotification env req =
        (.notFound "Receiver has no FCM token",
          { emptyTrace with userLookups := [req.receiverId.getD ""] })) := by
  constructor
  · intro hu
    unfold handleSendNotification
    simp [hs, hr, hm, hu]
  · intro rd hu ht
    unfold handleSendNotification
    simp [hs, hr, hm, hu, ht]

/-- An environment in which user `u2` exists but has no FCM token. -/
def sampleEnvNoToken : Env where
  users := fun u => if u = "u2" then some ⟨none⟩ else none
  gateway := fun _ => .ok "fcm-msg-1"
  historyOk := true
  now := "2024-01-01T00:00:00.000Z"

/-- Witness for C3: an unknown receiver `u3`, and receiver `u2` without a
token. -/
theorem sendNotification_skip_paths_witness :
    (handleSendNotification sampleEnv
        ⟨some "u1", some "u3", some "hi", none, none, none⟩ =
      (.notFound "Receiver not found",
        { emptyTrace with userLookups := ["u3"] })) ∧
    (handleSendNotification sampleEnvNoToken sampleReq =
      (.notFound "Receiver has no FCM token",
        { emptyTrace with userLookups := ["u2"] })) :=
  ⟨(sendNotification_skip_paths sampleEnv _ (by decide) (by decide)
      (by decide)).1 (by decide),
   (sendNotification_skip_paths sampleEnvNoToken sampleReq (by decide)
      (by decide) (by decide)).2 ⟨none⟩ (by decide) (by decide)⟩

/-- The HTTP response of the handler does not depend on whether the
best-effort history append would succeed. -/
theorem handleSendNotification_response_ignores_history
    (users : String → Option UserRecord)
    (gateway : FCMMessage → Except String String) (now : String)
    (b1 b2 : Bool) (req : SendNotificationRequest) :
    (handleSendNotification ⟨users, gateway, b1, now⟩ req).1 =
    (handleSendNotification ⟨users, gateway, b2, now⟩ req).1 := by
  unfold handleSendNotification
  cases hc : (truthy req.senderId && truthy req.receiverId &&
      truthy req.message) with
  | false => simp [hc]
  | true =>
    simp only [hc, if_true]
    cases hu : users (req.receiverId.getD "") with
    | none => rfl
    | some rd =>
        cases ht : truthy rd.fcmToken with
        | false => simp [ht]
        | true =>
          simp only [ht, if_true]
          cases hres : (sendFCMNotification gateway (rd.fcmToken.getD "")
              (composePayload (req.senderId.getD "") (req.message.getD "")
                req.senderName req.chatId req.notificationId now).title
              (composePayload (req.senderId.getD "") (req.message.getD "")
                req.senderName req.chatId req.notificationId now).body
              (composePayload (req.senderId.getD "") (req.message.getD "")
                req.senderName req.chatId req.notificationId now).data).success <;>
            simp [hres]

/-- C4: for an otherwise-successful send, a failure of the best-effort
history write never changes the response: replacing the history store's
behaviour (`historyOk`) by any other leaves the returned result
identical. -/
theorem sendNotification_history_failure_isolated (env : Env)
    (req : SendNotificationRequest) (b : Bool) (r : SendResult)
    (hok : (handleSendNotification env req).1 = .ok r)
    (hsuc : r.success = true) :
    (handleSendNotification { env with historyOk := b } req).1 =
      (handleSendNotification env req).1 := by
  cases env
  exact handleSendNotification_response_ignores_history _ _ _ _ _ req

/-- Witness for C4: the sample send succeeds and the response is the same
when the history append fails. -/
theorem sendNotification_history_failure_isolated_witness :
    (handleSendNotification { sampleEnv with historyOk := false }
        sampleReq).1 =
      (handleSendNotification sampleEnv sampleReq).1 :=
  sendNotification_history_failure_isolated sampleEnv sampleReq false
    ⟨true, some "fcm-msg-1", none⟩ (by decide) rfl

/-- C5: any gateway rejection is caught by `sendFCMNotification` and
returned as a failed result value carrying the gateway's reason string
verbatim, not rethrown to the caller. -/
theorem gateway_rejection_yields_failed_result
    (gateway : FCMMessage → Except String String)
    (token title body : String) (data : List (String × String)) (e : String)
    (h : gateway (buildFCMMessage token title body data) = .error e) :
    sendFCMNotification gateway token title body data =
      ⟨false, none, some e⟩ := by
  unfold sendFCMNotification
  rw [h]

/-- Witness for C5 with a gateway that rejects with reason
"quota exceeded". -/
theorem gateway_rejection_yields_failed_result_witness :
    sendFCMNotification (fun _ => .error "quota exceeded") "tok" "t" "b" [] =
      ⟨false, none, some "quota exceeded"⟩ :=
  gateway_rejection_yields_failed_result _ "tok" "t" "b" [] "quota exceeded" rfl

/-- C6: every message handed to the gateway by `/send-notification`
carries a `data` map containing type="message", the sender id, the sender
name (defaulted to "Someone" when absent or empty), the chat id (empty
string if absent), the compose-time clock reading under "timestamp", and
the notification id (empty string if absent). -/
theorem sendNotification_metadata_complete (env : Env)
    (req : SendNotificationRequest)
    (hs : truthy req.senderId = true) (hr : truthy req.receiverId = true)
    (hm : truthy req.message = true) (rd : UserRecord)
    (hu : env.users (req.receiverId.getD "") = some rd)
    (ht : truthy rd.fcmToken = true) :
    ∀ m ∈ (handleSendNotification env req).2.gatewaySends,
      m.data.lookup "type" = some "message" ∧
      m.data.lookup "senderId" = some (req.senderId.getD "") ∧
      m.data.lookup "senderName" = some (jsOr req.senderName "Someone") ∧
      m.data.lookup "chatId" = some (jsOr req.chatId "") ∧
      m.data.lookup "timestamp" = some env.now ∧
      m.data.lookup "notificationId" = some (jsOr req.notificationId "") := by
  obtain ⟨hg, -⟩ := handleSendNotification_send_trace env req hs hr hm rd hu ht
  rw [hg]
  intro m hmem
  rw [List.mem_singleton] at hmem
  subst hmem
  simp [sentMessage, buildFCMMessage, composeData, List.lookup, List.filter]

/-- Witness for C6 at the sample request. -/
theorem sendNotification_metadata_complete_witness :
    (sentMessage sampleEnv sampleReq ⟨some "tokenXYZ"⟩).data.lookup "type" =
        some "message" ∧
      (sentMessage sampleEnv sampleReq ⟨some "tokenXYZ"⟩).data.lookup
          "senderId" = some "u1" ∧
      (sentMessage sampleEnv sampleReq ⟨some "tokenXYZ"⟩).data.lookup
          "senderName" = some "Alice" ∧
      (sentMessage sampleEnv sampleReq ⟨some "tokenXYZ"⟩).data.lookup
          "chatId" = some "" ∧
      (sentMessage sampleEnv sampleReq ⟨some "tokenXYZ"⟩).data.lookup
          "timestamp" = some "2024-01-01T00:00:00.000Z" ∧
      (sentMessage sampleEnv sampleReq ⟨some "tokenXYZ"⟩).data.lookup
          "notificationId" = some "" :=
  sendNotification_metadata_complete sampleEnv sampleReq (by decide)
    (by decide) (by decide) ⟨some "tokenXYZ"⟩ (by decide) (by decide)
    (sentMessage sampleEnv sampleReq ⟨some "tokenXYZ"⟩) (by decide)

/-- C10: every message handed to the gateway by `/send-notification`
carries the full, untruncated message text in its `data` map under the key
"message", regardless of body truncation. -/
theorem sendNotification_full_message_in_data (env : Env)
    (req : SendNotificationRequest)
    (hs : truthy req.senderId = true) (hr : truthy req.receiverId = true)
    (hm : truthy req.message = true) (rd : UserRecord)
    (hu : env.users (req.receiverId.getD "") = some rd)
    (ht : truthy rd.fcmToken = true) :
    ∀ m ∈ (handleSendNotification env req).2.gatewaySends,
      m.data.lookup "message" = some (req.message.getD "") := by
  obtain ⟨hg, -⟩ := handleSendNotification_send_trace env req hs hr hm rd hu ht
  rw [hg]
  intro m hmem
  rw [List.mem_singleton] at hmem
  subst hmem
  simp [sentMessage, buildFCMMessage, composeData, List.lookup, List.filter]

/-- A 120-character message, longer than the 100-character body limit. -/
def longMsg : String :=
  String.mk (List.replicate 120 'a')

/-- The sample request carrying the 120-character message. -/
def longReq : SendNotificationRequest :=
  ⟨some "u1", some "u2", some longMsg, some "Alice", none, none⟩

set_option maxRecDepth 8192 in
/-- Witness for C10: with a 120-character message (whose displayed body is
truncated), the gateway data still carries all 120 characters. -/
theorem sendNotification_full_message_in_data_witness :
    (sentMessage sampleEnv longReq ⟨some "tokenXYZ"⟩).data.lookup "message" =
      some longMsg :=
  sendNotification_full_message_in_data sampleEnv longReq (by decide)
    (by decide) (by decide) ⟨some "tokenXYZ"⟩ (by decide) (by decide)
    (sentMessage sampleEnv longReq ⟨some "tokenXYZ"⟩) (by decide)

/-- C7 counterexample: payload composition is not a function of the event
and sender name alone — two compositions of the same event and sender name
at different compose times differ, because the metadata embeds the
compose-time clock reading. -/
theorem composePayload_not_time_invariant :
    composePayload "u1" "hi" (some "Alice") none none
        "2024-01-01T00:00:00.000Z" ≠
      composePayload "u1" "hi" (some "Alice") none none
        "2024-01-01T00:00:01.000Z" := by
  decide

/-- C7 as amended: payload composition is a deterministic, pure function
of the message event, the sender name and the compose-time clock reading —
two handler runs in any two environments that agree on the clock compose
identical payloads, whatever their user stores, gateways or history
stores do. -/
theorem sendNotification_compose_pure (env1 env2 : Env)
    (req : SendNotificationRequest) (hnow : env1.now = env2.now)
    (hs : truthy req.senderId = true) (hr : truthy req.receiverId = true)
    (hm : truthy req.message = true) (rd1 rd2 : UserRecord)
    (hu1 : env1.users (req.receiverId.getD "") = some rd1)
    (ht1 : truthy rd1.fcmToken = true)
    (hu2 : env2.users (req.receiverId.getD "") = some rd2)
    (ht2 : truthy rd2.fcmToken = true) :
    (handleSendNotification env1 req).2.composed =
      (handleSendNotification env2 req).2.composed := by
  obtain ⟨-, hc1⟩ :=
    handleSendNotification_send_trace env1 req hs hr hm rd1 hu1 ht1
  obtain ⟨-, hc2⟩ :=
    handleSendNotification_send_trace env2 req hs hr hm rd2 hu2 ht2
  rw [hc1, hc2, hnow]

/-- A second sample environment differing from `sampleEnv` in user store,
gateway behaviour and history-store behaviour, but with the same clock. -/
def sampleEnvOther : Env where
  users := fun u =>
    if u = "u2" then some ⟨some "otherToken"⟩ else some ⟨none⟩
  gateway := fun _ => .error "unavailable"
  historyOk := false
  now := "2024-01-01T00:00:00.000Z"

/-- Witness for the amended C7: the two sample environments share a clock
reading and compose the same payload for the sample request. -/
theorem sendNotification_compose_pure_witness :
    (handleSendNotification sampleEnv sampleReq).2.composed =
      (handleSendNotification sampleEnvOther sampleReq).2.composed :=
  sendNotification_compose_pure sampleEnv sampleEnvOther sampleReq rfl
    (by decide) (by decide) (by decide) ⟨some "tokenXYZ"⟩
    ⟨some "otherToken"⟩ (by decide) (by decide) (by decide) (by decide)

/-- C8: in the listener dispatch path, with participants `["u1", "u2"]`
and last-message sender `u1`, every user lookup performed targets the
derived receiver `u2`; in the sample environment the outcome is a dispatch
to `u2`; and with `u1` as the only participant the outcome is a no-receiver
skip with an empty trace — no lookup, no send, and no raised error. -/
theorem changeWatcher_receiver_derivation (env : Env) (chatId m : String)
    (ns : List (String × String)) :
    ((handleNewMessage env chatId
        ⟨some m, some "u1", ["u1", "u2"], ns⟩).2.userLookups = ["u2"]) ∧
    ((handleNewMessage sampleEnv "chat1"
        ⟨some "hello", some "u1", ["u1", "u2"], [("u1", "Alice")]⟩).1 =
      .dispatched "u2" ⟨true, some "fcm-msg-1", none⟩) ∧
    (handleNewMessage env chatId ⟨some m, some "u1", ["u1"], ns⟩ =
      (.skippedNoReceiver, emptyTrace)) := by
  refine ⟨?_, by decide, ?_⟩
  · unfold handleNewMessage
    simp only [Option.getD_some, List.find?]
    cases hu : env.users "u2" with
    | none => simp [hu]
    | some rd => cases ht : truthy rd.fcmToken <;> simp [hu, ht]
  · unfold handleNewMessage
    simp [List.find?]
